import Mathlib

/-! Shallow embedding of `op-program/l2/engineapi/l2_engine_api.go`: the deterministic
L2 block-building and fork-choice engine API (`L2EngineAPI`).

Machine integers (`uint64`) are modelled as `Nat`; the one place where Go's
`uint64` wraparound can matter (`block.NumberU64()-1` in `NewPayloadV1`) is
modelled explicitly by `u64sub1`.  Byte strings are `List Nat` (each element a
byte value).  Hashes and addresses are modelled as `Nat` values; where the code
feeds their raw bytes into a hasher they are expanded with `bytesBE`.

External collaborators (the go-ethereum `EngineBackend`, `core.ApplyTransaction`,
`state.StateDB`, block decoding) are modelled at their interface, as fields of
the `Chain` structure; the mutable backend pointer state (canonical mapping,
current/safe/final heads) lives in `BackendState` and is threaded explicitly.
-/

namespace EngineAPI

/-- Go `uint64` subtraction by one: `n-1` wraps to `2^64-1` when `n = 0`
    (used for `block.NumberU64()-1` in `NewPayloadV1`). -/
def u64sub1 (n : Nat) : Nat := if n = 0 then 2 ^ 64 - 1 else n - 1

/-- Big-endian byte encoding of `n` in `w` bytes (truncating above `2^(8*w)`),
    as `binary.Write(hasher, binary.BigEndian, ·)` produces for fixed-width
    integers, and as `hash[:]` exposes a 32-byte hash. -/
def bytesBE (w n : Nat) : List Nat :=
  (List.range w).map (fun i => n / 256 ^ (w - 1 - i) % 256)

/-- Big-endian encoding of a `uint64`, the 8-byte form `binary.Write` emits. -/
def u64be (n : Nat) : List Nat :=
  [n / 2 ^ 56 % 256, n / 2 ^ 48 % 256, n / 2 ^ 40 % 256, n / 2 ^ 32 % 256,
   n / 2 ^ 24 % 256, n / 2 ^ 16 % 256, n / 2 ^ 8 % 256, n % 256]

/-- Encoding of a Go `bool` by `binary.Write`: a single 0/1 byte. -/
def boolByte (b : Bool) : List Nat := [if b then 1 else 0]

/-! SHA-256 (crypto/sha256), operating on byte lists -/

/-- Rotate a 32-bit word right by `n`, in plain `Nat` arithmetic. -/
def rotr32 (n x : Nat) : Nat := (x / 2 ^ n + x % 2 ^ n * 2 ^ (32 - n)) % 2 ^ 32

/-- The 32-bit complement. -/
def not32 (x : Nat) : Nat := x ^^^ (2 ^ 32 - 1)

/-- The 64 SHA-256 round constants, written in decimal. -/
def sha256K : List Nat :=
  [1116352408, 1899447441, 3049323471, 3921009573, 961987163,
   1508970993, 2453635748, 2870763221, 3624381080, 310598401,
   607225278, 1426881987, 1925078388, 2162078206, 2614888103,
   3248222580, 3835390401, 4022224774, 264347078, 604807628,
   770255983, 1249150122, 1555081692, 1996064986, 2554220882,
   2821834349, 2952996808, 3210313671, 3336571891, 3584528711,
   113926993, 338241895, 666307205, 773529912, 1294757372,
   1396182291, 1695183700, 1986661051, 2177026350, 2456956037,
   2730485921, 2820302411, 3259730800, 3345764771, 3516065817,
   3600352804, 4094571909, 275423344, 430227734, 506948616,
   659060556, 883997877, 958139571, 1322822218, 1537002063,
   1747873779, 1955562222, 2024104815, 2227730452, 2361852424,
   2428436474, 2756734187, 3204031479, 3329325298]

/-- The eight SHA-256 initial hash words, written in decimal. -/
def sha256H0 : List Nat :=
  [1779033703, 3144134277, 1013904242, 2773480762,
   1359893119, 2600822924, 528734635, 1541459225]

/-- SHA-256 padding: append `0x80`, zeros, and the 64-bit message bit length. -/
def sha256Pad (msg : List Nat) : List Nat :=
  msg ++ [0x80] ++ List.replicate ((64 - (msg.length + 9) % 64) % 64) 0
      ++ u64be (8 * msg.length)

/-- Split a byte list into 64-byte chunks. -/
def chunks64 : List Nat → List (List Nat)
  | [] => []
  | a :: rest =>
    (a :: rest).take 64 :: chunks64 ((a :: rest).drop 64)
termination_by l => l.length
decreasing_by simp [List.length_drop]; omega

/-- The `i`-th big-endian 32-bit word of a 64-byte chunk. -/
def msgWord (chunk : List Nat) (i : Nat) : Nat :=
  chunk.getD (4 * i) 0 * 2 ^ 24 + chunk.getD (4 * i + 1) 0 * 2 ^ 16 +
  chunk.getD (4 * i + 2) 0 * 2 ^ 8 + chunk.getD (4 * i + 3) 0

def smallSigma0 (x : Nat) : Nat := rotr32 7 x ^^^ rotr32 18 x ^^^ x / 2 ^ 3
def smallSigma1 (x : Nat) : Nat := rotr32 17 x ^^^ rotr32 19 x ^^^ x / 2 ^ 10
def bigSigma0 (x : Nat) : Nat := rotr32 2 x ^^^ rotr32 13 x ^^^ rotr32 22 x
def bigSigma1 (x : Nat) : Nat := rotr32 6 x ^^^ rotr32 11 x ^^^ rotr32 25 x

/-- One extension step of the SHA-256 message schedule. -/
def schedStep (ws : List Nat) : List Nat :=
  let n := ws.length
  ws ++ [(smallSigma1 (ws.getD (n - 2) 0) + ws.getD (n - 7) 0 +
          smallSigma0 (ws.getD (n - 15) 0) + ws.getD (n - 16) 0) % 2 ^ 32]

/-- The 64-word message schedule of a chunk. -/
def sha256Schedule (chunk : List Nat) : List Nat :=
  (List.range 48).foldl (fun ws _ => schedStep ws)
    ((List.range 16).map (msgWord chunk))

/-- One SHA-256 compression round over the working variables `[a..h]`. -/
def sha256Round (ws : List Nat) (st : List Nat) (i : Nat) : List Nat :=
  let a := st.getD 0 0
  let b := st.getD 1 0
  let c := st.getD 2 0
  let d := st.getD 3 0
  let e := st.getD 4 0
  let f := st.getD 5 0
  let g := st.getD 6 0
  let h := st.getD 7 0
  let t1 := (h + bigSigma1 e + ((e &&& f) ^^^ (not32 e &&& g)) +
             sha256K.getD i 0 + ws.getD i 0) % 2 ^ 32
  let t2 := (bigSigma0 a + ((a &&& b) ^^^ (a &&& c) ^^^ (b &&& c))) % 2 ^ 32
  [(t1 + t2) % 2 ^ 32, a, b, c, (d + t1) % 2 ^ 32, e, f, g]

/-- Compress one 64-byte chunk into the running hash state (8 words). -/
def sha256Compress (hs chunk : List Nat) : List Nat :=
  let ws := sha256Schedule chunk
  let fin := (List.range 64).foldl (sha256Round ws) hs
  List.zipWith (fun x y => (x + y) % 2 ^ 32) hs fin

/-- SHA-256 digest of a byte list, as 32 bytes. -/
def sha256 (msg : List Nat) : List Nat :=
  (((chunks64 (sha256Pad msg)).foldl sha256Compress sha256H0).map
    (bytesBE 4)).flatten

/-! Data model -/

/-- The fields of `types.Header` this component reads or writes.  Go zero
    values for the fields `startBlock` leaves unset: `gasUsed = 0`, `root = 0`. -/
structure Header where
  parentHash : Nat
  coinbase : Nat
  difficulty : Nat
  number : Nat
  gasLimit : Nat
  time : Nat
  mixDigest : Nat
  baseFee : Nat
  gasUsed : Nat
  root : Nat
  deriving DecidableEq, Repr, Inhabited

/-- A `types.Transaction` at the interface this component uses: its gas limit
    (`tx.Gas()`) and hash (`tx.Hash()`). -/
structure Tx where
  gas : Nat
  hash : Nat
  deriving DecidableEq, Repr

/-- A `types.Block`: header plus transaction body (as assembled by
    `types.NewBlock(header, txs, nil, receipts, ...)`). -/
structure Block where
  header : Header
  txs : List Tx
  deriving DecidableEq, Repr

/-- Successful result of `core.ApplyTransaction`: the receipt (opaque id, with
    its gas-used amount, by which geth decrements the gas pool and increments
    `header.GasUsed`) and the resulting working state (opaque id). -/
structure ApplyOk where
  receipt : Nat
  gasUsed : Nat
  newState : Nat
  deriving DecidableEq, Repr

/-- The `eth.PayloadAttributes` fields consumed here: `Timestamp`, `PrevRandao`
    (32 bytes), `SuggestedFeeRecipient` (20 bytes), raw `Transactions`,
    `NoTxPool`, `GasLimit`. -/
structure PayloadAttributes where
  timestamp : Nat
  prevRandao : Nat
  suggestedFeeRecipient : Nat
  transactions : List (List Nat)
  noTxPool : Bool
  gasLimit : Nat
  deriving DecidableEq, Repr

/-- An `eth.ExecutionPayload` at the granularity this component needs: its
    advertised block hash plus the remaining (opaque) payload content, which
    only the external decoder `engine.ExecutableDataToBlock` consumes. -/
structure ExecutionPayload where
  blockHash : Nat
  body : Nat
  deriving DecidableEq, Repr

/-- The `eth.ForkchoiceState` record: the requested (head, safe, finalized) hash triple.
    The zero hash is modelled as `0`. -/
structure ForkchoiceState where
  headBlockHash : Nat
  safeBlockHash : Nat
  finalizedBlockHash : Nat
  deriving DecidableEq, Repr

/-- Mutable chain-pointer state held by the `EngineBackend`: the canonical
    number-to-hash mapping (an association list; absent numbers map to the
    zero hash), and the current/safe/finalized head headers. -/
structure BackendState where
  canonical : List (Nat × Nat)
  current : Header
  safe : Option Header
  final : Option Header
  deriving DecidableEq, Repr

/-- Association-list lookup with the Go-map / `GetCanonicalHash` default 0. -/
def mapGet (m : List (Nat × Nat)) (k : Nat) : Nat :=
  match m.find? (fun p => p.1 == k) with
  | some p => p.2
  | none => 0

/-- Go map increment, `m` at `k` raised by one, on an association list. -/
def mapBump (m : List (Nat × Nat)) (k : Nat) : List (Nat × Nat) :=
  if m.any (fun p => p.1 == k) then
    m.map (fun p => if p.1 == k then (p.1, p.2 + 1) else p)
  else m ++ [(k, 1)]

/-- Lookup in the canonical association list (`GetCanonicalHash`). -/
def BackendState.canonicalHash (b : BackendState) (n : Nat) : Nat :=
  mapGet b.canonical n

/-- The immutable collaborator surface: lookups and pure external functions of
    the `EngineBackend` and of go-ethereum, modelled at their interface (spec
    section 6).  `applyTx` takes the header, the remaining gas pool, the
    working-state id and the transaction; per the `core.ApplyTransaction`
    contract it fails (`none`) or yields a receipt whose `gasUsed` is deducted
    from the pool.  `setCanonical` returns the updated pointer state or, on
    failure, the backend-reported latest-valid hash. -/
structure Chain where
  getBlockByHash : Nat → Option Block
  getHeaderByHash : Nat → Option Header
  getBlock : Nat → Nat → Option Block
  hasBlockAndState : Nat → Nat → Bool
  stateAt : Nat → Option Nat
  calcBaseFee : Header → Nat
  decodeTx : List Nat → Option Tx
  setTxContext : Nat → Nat → Nat → Nat
  applyTx : Header → Nat → Nat → Tx → Option ApplyOk
  setCanonical : Block → BackendState → Except Nat BackendState
  executableDataToBlock : ExecutionPayload → Option Block
  blockAsPayload : Block → ExecutionPayload
  insertBlock : Block → Bool
  intermediateRoot : Nat → Bool → Nat
  isEIP158 : Nat → Bool
  headerHash : Header → Nat
  cfgOptimism : Bool

/-- The mutable fields of `L2EngineAPI`, together with the backend pointer
    state it drives.  `Option` models the nil-ness of the Go pointers
    `l2BuildingHeader`, `l2BuildingState` (a state id) and `l2GasPool`;
    `pendingIndices` is the per-sender inclusion-count map; `payloadID` is the
    8-byte payload identifier (Go zero value: eight zero bytes). -/
structure EngineState where
  backend : BackendState
  l2BuildingHeader : Option Header
  l2BuildingState : Option Nat
  l2GasPool : Option Nat
  pendingIndices : List (Nat × Nat)
  l2Transactions : List Tx
  l2Receipts : List Nat
  l2ForceEmpty : Bool
  l2TxFailed : List Tx
  payloadID : List Nat
  deriving DecidableEq, Repr

/-- Constructor `NewL2EngineAPI`: all building fields at their Go zero values. -/
def newL2EngineAPI (backend : BackendState) : EngineState :=
  { backend := backend
    l2BuildingHeader := none
    l2BuildingState := none
    l2GasPool := none
    pendingIndices := []
    l2Transactions := []
    l2Receipts := []
    l2ForceEmpty := false
    l2TxFailed := []
    payloadID := List.replicate 8 0 }

/-! Payload id (`computePayloadId`) -/

/-- Length-prefixed encoding of one raw transaction as fed to the hasher:
    `binary.Write(hasher, BigEndian, uint64(len(tx)))` then the bytes. -/
def txEnc (tx : List Nat) : List Nat := u64be tx.length ++ tx

/-- The exact byte stream `computePayloadId` feeds to its SHA-256 hasher:
    parent hash, timestamp, prev-randao, fee recipient, the no-tx-pool flag,
    the transaction count, each transaction length-prefixed, the gas limit. -/
def payloadIdInput (headBlockHash : Nat) (p : PayloadAttributes) : List Nat :=
  bytesBE 32 headBlockHash ++ u64be p.timestamp ++ bytesBE 32 p.prevRandao ++
  bytesBE 20 p.suggestedFeeRecipient ++ boolByte p.noTxPool ++
  u64be p.transactions.length ++ (p.transactions.map txEnc).flatten ++
  u64be p.gasLimit

/-- The function `computePayloadId`: the first 8 bytes of the SHA-256 digest of the
    parameter encoding. -/
def computePayloadId (headBlockHash : Nat) (p : PayloadAttributes) : List Nat :=
  (sha256 (payloadIdInput headBlockHash p)).take 8

/-! Builder accessors -/

/-- Accessor `RemainingBlockGas` returns `ea.l2GasPool.Gas()`; on a nil gas pool the Go
    code dereferences a nil pointer, modelled as `none`. -/
def remainingBlockGas (s : EngineState) : Option Nat :=
  s.l2GasPool

/-- Accessor `ForcedEmpty`. -/
def forcedEmpty (s : EngineState) : Bool := s.l2ForceEmpty

/-- Accessor `PendingIndices(from)`: a Go map read, 0 when absent (also on nil map). -/
def pendingIndicesOf (s : EngineState) (sender : Nat) : Nat :=
  mapGet s.pendingIndices sender

/-! Transaction inclusion -/

/-- The error classes `IncludeTx` can return: `ErrNotBuildingBlock`,
    `ErrExceedsGasLimit`, `ErrUsesTooMuchGas`, and the wrapped application
    failure `"invalid L2 block (tx %d)"` carrying the position. -/
inductive IncludeErr where
  | notBuildingBlock
  | exceedsGasLimit
  | usesTooMuchGas
  | applyFailed (pos : Nat)
  deriving DecidableEq, Repr

/-- Generic ok-or-error result (Go's `(..., error)` convention). -/
inductive Res (ε : Type) where
  | ok
  | err (e : ε)
  deriving DecidableEq, Repr

/-- Operation `IncludeTx(tx, from)`.  Mirrors the source line by line: nil-header guard,
    force-empty early return, the two gas checks, then the unconditional
    pending-index bump, `SetTxContext`, and `core.ApplyTransaction`, whose
    failure appends to `l2TxFailed` and whose success appends the receipt and
    transaction and deducts the gas used from the pool.  (When the header is
    non-nil the gas pool and working state are non-nil too — `startBlock` sets
    them together — so the `getD` defaults are never reached from reachable
    states.) -/
def includeTx (c : Chain) (s : EngineState) (tx : Tx) (sender : Nat) :
    EngineState × Res IncludeErr :=
  match s.l2BuildingHeader with
  | none => (s, .err .notBuildingBlock)
  | some hdr =>
    if s.l2ForceEmpty then (s, .ok)
    else if tx.gas > hdr.gasLimit then (s, .err .exceedsGasLimit)
    else
      let pool := s.l2GasPool.getD 0
      if tx.gas > pool then (s, .err .usesTooMuchGas)
      else
        let s1 := { s with pendingIndices := mapBump s.pendingIndices sender }
        let st1 := c.setTxContext (s.l2BuildingState.getD 0) tx.hash
                     s.l2Transactions.length
        match c.applyTx hdr pool st1 tx with
        | none =>
          ({ s1 with l2BuildingState := some st1,
                     l2TxFailed := s1.l2TxFailed ++ [tx] },
           .err (.applyFailed s.l2Transactions.length))
        | some res =>
          ({ s1 with
              l2BuildingHeader := some { hdr with gasUsed := hdr.gasUsed + res.gasUsed }
              l2BuildingState := some res.newState
              l2GasPool := some (pool - res.gasUsed)
              l2Receipts := s1.l2Receipts ++ [res.receipt]
              l2Transactions := s1.l2Transactions ++ [tx] },
           .ok)

/-! Starting a build -/

/-- The errors `startBlock` can return: unknown parent, state-db
    initialization failure, and per-deposit decode (`"transaction %d is not
    valid"`) or application (`"failed to apply deposit transaction"`)
    failures, each carrying the failing index. -/
inductive StartErr where
  | unknownParent
  | stateAtFailed
  | txInvalid (i : Nat)
  | txApplyFailed (i : Nat)
  deriving DecidableEq, Repr

/-- The deposit pre-processing loop at the end of `startBlock`: decode each
    raw transaction, `SetTxContext`, apply it; a failure returns the error for
    index `i` immediately — without unsetting any of the building fields
    assigned before the loop. -/
def depositLoop (c : Chain) (s : EngineState) (otxs : List (List Nat))
    (i : Nat) : EngineState × Res StartErr :=
  match otxs with
  | [] => (s, .ok)
  | otx :: rest =>
    match c.decodeTx otx with
    | none => (s, .err (.txInvalid i))
    | some tx =>
      let hdr := s.l2BuildingHeader.getD default
      let pool := s.l2GasPool.getD 0
      let st1 := c.setTxContext (s.l2BuildingState.getD 0) tx.hash i
      match c.applyTx hdr pool st1 tx with
      | none =>
        ({ s with l2BuildingState := some st1,
                  l2TxFailed := s.l2TxFailed ++ [tx] },
         .err (.txApplyFailed i))
      | some res =>
        depositLoop c
          { s with
              l2BuildingHeader := some { hdr with gasUsed := hdr.gasUsed + res.gasUsed }
              l2BuildingState := some res.newState
              l2GasPool := some (pool - res.gasUsed)
              l2Receipts := s.l2Receipts ++ [res.receipt]
              l2Transactions := s.l2Transactions ++ [tx] }
          rest (i + 1)

/-- The header `startBlock` allocates: parent hash, fee recipient as
    coinbase, zero difficulty, number = parent + 1, the requested gas limit
    and timestamp, prev-randao as mix digest, the backend-computed base fee;
    gas-used and root at their Go zero values. -/
def startHeader (c : Chain) (parent : Nat) (parentHeader : Header)
    (params : PayloadAttributes) : Header :=
  { parentHash := parent
    coinbase := params.suggestedFeeRecipient
    difficulty := 0
    number := parentHeader.number + 1
    gasLimit := params.gasLimit
    time := params.timestamp
    mixDigest := params.prevRandao
    baseFee := c.calcBaseFee parentHeader
    gasUsed := 0
    root := 0 }

/-- Operation `startBlock(parent, params)`.  Resolves the parent header, opens a working
    state at its root, allocates the new header, assigns all building fields —
    including the payload id — and then pre-processes the deposits.  A deposit
    failure returns an error with the fields still assigned. -/
def startBlock (c : Chain) (s : EngineState) (parent : Nat)
    (params : PayloadAttributes) : EngineState × Res StartErr :=
  match c.getHeaderByHash parent with
  | none => (s, .err .unknownParent)
  | some parentHeader =>
    match c.stateAt parentHeader.root with
    | none => (s, .err .stateAtFailed)
    | some statedb =>
      let header : Header := startHeader c parent parentHeader params
      depositLoop c
        { s with
            l2BuildingHeader := some header
            l2BuildingState := some statedb
            l2Receipts := []
            l2Transactions := []
            pendingIndices := []
            l2ForceEmpty := params.noTxPool
            l2GasPool := some header.gasLimit
            payloadID := computePayloadId parent params }
        params.transactions 0

/-! Ending a build and payload retrieval -/

/-- Outcome of `endBlock`: the "no block is being built" error, the sealed
    block, or — when the header is set but the gas pool or working state is
    nil — the nil-pointer dereference the Go code would hit (unreachable from
    states `startBlock` produces, which set all three together). -/
inductive EndOutcome where
  | errNotBuilding
  | panicNil
  | sealed (b : Block)
  deriving DecidableEq, Repr

/-- Operation `endBlock`: clears the open-build slot, finalizes `GasUsed` as
    `gasLimit - *l2GasPool`, commits the working state's root, and assembles
    the block from the header and the included transactions. -/
def endBlock (c : Chain) (s : EngineState) : EngineState × EndOutcome :=
  match s.l2BuildingHeader with
  | none => (s, .errNotBuilding)
  | some hdr =>
    let s1 := { s with l2BuildingHeader := none }
    match s.l2GasPool, s.l2BuildingState with
    | some pool, some st =>
      let hdr1 := { hdr with
                      gasUsed := hdr.gasLimit - pool
                      root := c.intermediateRoot st (c.isEIP158 hdr.number) }
      (s1, .sealed { header := hdr1, txs := s.l2Transactions })
    | _, _ => (s1, .panicNil)

/-- Outcome of `GetPayloadV1`: `engine.UnknownPayload`, the payload, or the
    nil-dereference case propagated from `endBlock`. -/
inductive GetPayloadOutcome where
  | unknownPayload
  | panicNil
  | payload (p : ExecutionPayload)
  deriving DecidableEq, Repr

/-- Operation `GetPayloadV1(payloadId)`: an id mismatch returns `UnknownPayload` without
    touching any state; otherwise `endBlock` runs, its error is reported as
    `UnknownPayload`, and its sealed block is converted by `eth.BlockAsPayload`. -/
def getPayloadV1 (c : Chain) (s : EngineState) (payloadId : List Nat) :
    EngineState × GetPayloadOutcome :=
  if s.payloadID ≠ payloadId then (s, .unknownPayload)
  else
    match endBlock c s with
    | (s1, .errNotBuilding) => (s1, .unknownPayload)
    | (s1, .panicNil) => (s1, .panicNil)
    | (s1, .sealed b) => (s1, .payload (c.blockAsPayload b))

/-! Forkchoice updates -/

/-- The `eth.ExecutionStatus` values used by this component. -/
inductive ExecutionStatus where
  | valid
  | invalid
  | syncing
  | accepted
  | invalidBlockHash
  deriving DecidableEq, Repr

/-- The `eth.PayloadStatusV1` record at the granularity used here: the status, the
    optional latest-valid hash, and whether a validation-error message is
    attached. -/
structure PayloadStatusV1 where
  status : ExecutionStatus
  latestValidHash : Option Nat
  validationError : Bool
  deriving DecidableEq, Repr

/-- The `eth.ForkchoiceUpdatedResult` record. -/
structure ForkchoiceUpdatedResult where
  payloadStatus : PayloadStatusV1
  payloadID : Option (List Nat)
  deriving DecidableEq, Repr

/-- The package-level result constant `STATUS_INVALID`. -/
def STATUS_INVALID : ForkchoiceUpdatedResult :=
  { payloadStatus := { status := .invalid, latestValidHash := none,
                       validationError := false }
    payloadID := none }

/-- The package-level result constant `STATUS_SYNCING`. -/
def STATUS_SYNCING : ForkchoiceUpdatedResult :=
  { payloadStatus := { status := .syncing, latestValidHash := none,
                       validationError := false }
    payloadID := none }

/-- The local `valid` result constructor inside `ForkchoiceUpdatedV1`:
    status Valid with the requested head as latest-valid hash. -/
def validFcuResult (fs : ForkchoiceState) (id : Option (List Nat)) :
    ForkchoiceUpdatedResult :=
  { payloadStatus := { status := .valid,
                       latestValidHash := some fs.headBlockHash,
                       validationError := false }
    payloadID := id }

/-- The Go `error` return values of `ForkchoiceUpdatedV1`, by class. -/
inductive FcuErr where
  | preMergeNotSupported
  | setCanonicalFailed
  | invalidForkchoiceState
  | invalidPayloadAttributes
  deriving DecidableEq, Repr

/-- Terminal outcome of `ForkchoiceUpdatedV1`: the `(result, error)` pair, or
    the panic on a non-Optimism configuration. -/
inductive FcuOutcome where
  | panicNotOptimism
  | result (r : ForkchoiceUpdatedResult) (goErr : Option FcuErr)
  deriving DecidableEq, Repr

/-- Final phase of `ForkchoiceUpdatedV1`: the optional payload-attributes
    handling.  A `startBlock` failure yields `STATUS_INVALID` with the
    invalid-payload-attributes error — keeping whatever builder state
    `startBlock` left behind; success attaches the new payload id. -/
def fcuAttrPhase (c : Chain) (s : EngineState) (fs : ForkchoiceState)
    (attr : Option PayloadAttributes) : EngineState × FcuOutcome :=
  match attr with
  | none => (s, .result (validFcuResult fs none) none)
  | some a =>
    match startBlock c s fs.headBlockHash a with
    | (s1, .err _) => (s1, .result STATUS_INVALID (some .invalidPayloadAttributes))
    | (s1, .ok) => (s1, .result (validFcuResult fs (some s1.payloadID)) none)

/-- Safe-block phase of `ForkchoiceUpdatedV1`: a non-zero safe hash must
    resolve and be canonical at its height (else `STATUS_INVALID` with an
    invalid-forkchoice-state error); on success `SetSafe` runs. -/
def fcuSafePhase (c : Chain) (s : EngineState) (fs : ForkchoiceState)
    (attr : Option PayloadAttributes) : EngineState × FcuOutcome :=
  if fs.safeBlockHash ≠ 0 then
    match c.getHeaderByHash fs.safeBlockHash with
    | none => (s, .result STATUS_INVALID (some .invalidForkchoiceState))
    | some safeHeader =>
      if s.backend.canonicalHash safeHeader.number ≠ fs.safeBlockHash then
        (s, .result STATUS_INVALID (some .invalidForkchoiceState))
      else
        fcuAttrPhase c
          { s with backend := { s.backend with safe := some safeHeader } }
          fs attr
  else fcuAttrPhase c s fs attr

/-- Finalized-block phase of `ForkchoiceUpdatedV1`: a non-zero finalized hash
    must resolve and be canonical at its height; on success `SetFinalized`
    runs, and only then the safe-block phase follows. -/
def fcuFinalPhase (c : Chain) (s : EngineState) (fs : ForkchoiceState)
    (attr : Option PayloadAttributes) : EngineState × FcuOutcome :=
  if fs.finalizedBlockHash ≠ 0 then
    match c.getHeaderByHash fs.finalizedBlockHash with
    | none => (s, .result STATUS_INVALID (some .invalidForkchoiceState))
    | some finalHeader =>
      if s.backend.canonicalHash finalHeader.number ≠ fs.finalizedBlockHash then
        (s, .result STATUS_INVALID (some .invalidForkchoiceState))
      else
        fcuSafePhase c
          { s with backend := { s.backend with final := some finalHeader } }
          fs attr
  else fcuSafePhase c s fs attr

/-- Operation `ForkchoiceUpdatedV1(state, attr)`: zero-head guard, head resolution
    (`STATUS_SYNCING` when unknown), pre-merge rejection, canonical-head
    reconciliation (`SetCanonical` when the head is not canonical at its
    height; no-op when it equals the current head; panic when neither and the
    chain is not configured as an Optimism chain), then the finalized, safe
    and build-attribute phases in that order. -/
def forkchoiceUpdatedV1 (c : Chain) (s : EngineState) (fs : ForkchoiceState)
    (attr : Option PayloadAttributes) : EngineState × FcuOutcome :=
  if fs.headBlockHash = 0 then (s, .result STATUS_INVALID none)
  else
    match c.getBlockByHash fs.headBlockHash with
    | none => (s, .result STATUS_SYNCING none)
    | some block =>
      if block.header.difficulty ≠ 0 then
        (s, .result STATUS_INVALID (some .preMergeNotSupported))
      else if s.backend.canonicalHash block.header.number ≠ fs.headBlockHash then
        match c.setCanonical block s.backend with
        | .error latestValid =>
          (s, .result { payloadStatus := { status := .invalid,
                                           latestValidHash := some latestValid,
                                           validationError := false }
                        payloadID := none }
              (some .setCanonicalFailed))
        | .ok bst => fcuFinalPhase c { s with backend := bst } fs attr
      else if c.headerHash s.backend.current = fs.headBlockHash then
        fcuFinalPhase c s fs attr
      else if c.cfgOptimism then
        fcuFinalPhase c s fs attr
      else (s, .panicNotOptimism)

/-! Payload insertion -/

/-- The `invalid` helper: latest-valid defaults to the current canonical head
    hash; when a latest-valid header is supplied it becomes the zero hash for
    a pre-merge (nonzero-difficulty) header and that header's hash otherwise.
    A validation-error message is always attached. -/
def invalidStatus (c : Chain) (bst : BackendState) (latestValid : Option Header) :
    PayloadStatusV1 :=
  match latestValid with
  | none => { status := .invalid, latestValidHash := some (c.headerHash bst.current),
              validationError := true }
  | some h =>
    { status := .invalid
      latestValidHash := some (if h.difficulty = 0 then c.headerHash h else 0)
      validationError := true }

/-- Operation `NewPayloadV1(payload)`: decode (InvalidBlockHash on failure), known-block
    short-circuit (Valid), parent resolution (Accepted when missing), the
    strict timestamp check (`invalid` with the parent as latest-valid header),
    the parent-state availability check (Accepted), and insertion
    (`invalid` on failure, Valid with the block's own hash on success).
    The mutation of the block store by `InsertBlockWithoutSetHead` is not
    modelled; only the returned status is. -/
def newPayloadV1 (c : Chain) (bst : BackendState) (payload : ExecutionPayload) :
    PayloadStatusV1 :=
  match c.executableDataToBlock payload with
  | none => { status := .invalidBlockHash, latestValidHash := none,
              validationError := false }
  | some block =>
    match c.getBlockByHash payload.blockHash with
    | some known =>
      { status := .valid, latestValidHash := some (c.headerHash known.header),
        validationError := false }
    | none =>
      match c.getBlock block.header.parentHash (u64sub1 block.header.number) with
      | none => { status := .accepted, latestValidHash := none,
                  validationError := false }
      | some parent =>
        if block.header.time ≤ parent.header.time then
          invalidStatus c bst (some parent.header)
        else if ! c.hasBlockAndState block.header.parentHash
                    (u64sub1 block.header.number) then
          { status := .accepted, latestValidHash := none,
            validationError := false }
        else if c.insertBlock block then
          { status := .valid, latestValidHash := some (c.headerHash block.header),
            validationError := false }
        else invalidStatus c bst (some parent.header)

/-! Invariants used by the gas-accounting results -/

/-- The contract of `core.ApplyTransaction` relevant to gas accounting: a
    successful application had enough gas in the pool (`ErrGasLimitReached`
    otherwise) and the receipt's gas used never exceeds the transaction's gas
    limit. -/
def ChainGasWF (c : Chain) : Prop :=
  ∀ hdr pool st tx res, c.applyTx hdr pool st tx = some res →
    tx.gas ≤ pool ∧ res.gasUsed ≤ tx.gas

/-- Builder gas invariant: while a header is set, the remaining pool is
    exactly the header's gas limit minus the gas used so far. -/
def GasInv (s : EngineState) : Prop :=
  ∀ hdr, s.l2BuildingHeader = some hdr →
    s.l2GasPool = some (hdr.gasLimit - hdr.gasUsed) ∧ hdr.gasUsed ≤ hdr.gasLimit

/-! Concrete fixtures (used by witnesses and counterexamples) -/

def headHdr : Header :=
  { parentHash := 7, coinbase := 0, difficulty := 0, number := 5,
    gasLimit := 30000000, time := 100, mixDigest := 0, baseFee := 7,
    gasUsed := 0, root := 42 }

def finalHdr : Header :=
  { parentHash := 6, coinbase := 0, difficulty := 0, number := 4,
    gasLimit := 30000000, time := 90, mixDigest := 0, baseFee := 7,
    gasUsed := 0, root := 43 }

def safeHdr : Header :=
  { parentHash := 5, coinbase := 0, difficulty := 0, number := 3,
    gasLimit := 30000000, time := 80, mixDigest := 0, baseFee := 7,
    gasUsed := 0, root := 44 }

def headBlock : Block := { header := headHdr, txs := [] }

def c6ParentHdr : Header :=
  { parentHash := 60, coinbase := 0, difficulty := 0, number := 9,
    gasLimit := 1000, time := 500, mixDigest := 0, baseFee := 7,
    gasUsed := 0, root := 45 }

def c6ParentBlock : Block := { header := c6ParentHdr, txs := [] }

def c6CandHdr : Header :=
  { parentHash := 66, coinbase := 0, difficulty := 0, number := 10,
    gasLimit := 1000, time := 400, mixDigest := 0, baseFee := 7,
    gasUsed := 0, root := 46 }

def c6CandBlock : Block := { header := c6CandHdr, txs := [] }

def c6Payload : ExecutionPayload := { blockHash := 77, body := 0 }

def testBst : BackendState :=
  { canonical := [(5, 11), (4, 21), (3, 22)], current := headHdr,
    safe := none, final := none }

/-- A concrete collaborator instantiation: head hash 11, finalized hash 21,
    safe hash 22; transaction application succeeds whenever the pool covers
    the transaction's gas and then uses exactly that gas. -/
def baseChain : Chain :=
  { getBlockByHash := fun h => if h = 11 then some headBlock else none
    getHeaderByHash := fun h =>
      if h = 11 then some headHdr
      else if h = 21 then some finalHdr
      else if h = 22 then some safeHdr
      else none
    getBlock := fun h n => if h = 66 ∧ n = 9 then some c6ParentBlock else none
    hasBlockAndState := fun _ _ => true
    stateAt := fun r => if r = 42 then some 1 else none
    calcBaseFee := fun hd => hd.baseFee
    decodeTx := fun bs => some { gas := 21000, hash := bs.headD 0 }
    setTxContext := fun st _ _ => st
    applyTx := fun _ pool _ tx =>
      if tx.gas ≤ pool then some { receipt := 900, gasUsed := tx.gas, newState := 2 }
      else none
    setCanonical := fun _ b => .ok b
    executableDataToBlock := fun p => if p.blockHash = 77 then some c6CandBlock else none
    blockAsPayload := fun b => { blockHash := b.header.number, body := b.txs.length }
    insertBlock := fun _ => true
    intermediateRoot := fun st _ => st + 1000
    isEIP158 := fun _ => true
    headerHash := fun hd => hd.root
    cfgOptimism := true }

/-- Same collaborators, but transaction application always fails. -/
def failChain : Chain := { baseChain with applyTx := fun _ _ _ _ => none }

def c1Attrs : PayloadAttributes :=
  { timestamp := 101, prevRandao := 3, suggestedFeeRecipient := 9,
    transactions := [[1]], noTxPool := false, gasLimit := 50000 }

def emptyAttrs : PayloadAttributes :=
  { timestamp := 101, prevRandao := 3, suggestedFeeRecipient := 9,
    transactions := [], noTxPool := false, gasLimit := 50000 }

def noPoolAttrs : PayloadAttributes :=
  { timestamp := 101, prevRandao := 3, suggestedFeeRecipient := 9,
    transactions := [], noTxPool := true, gasLimit := 50000 }

def c2OpenHdr : Header :=
  { parentHash := 11, coinbase := 9, difficulty := 0, number := 6,
    gasLimit := 100000, time := 101, mixDigest := 3, baseFee := 7,
    gasUsed := 0, root := 0 }

/-- A state with an open build: header set, pool full, working state 1. -/
def c2OpenState : EngineState :=
  { backend := testBst
    l2BuildingHeader := some c2OpenHdr
    l2BuildingState := some 1
    l2GasPool := some 100000
    pendingIndices := []
    l2Transactions := []
    l2Receipts := []
    l2ForceEmpty := false
    l2TxFailed := []
    payloadID := List.replicate 8 0 }

def testFs : ForkchoiceState :=
  { headBlockHash := 11, safeBlockHash := 22, finalizedBlockHash := 21 }

def c5Attrs1 : PayloadAttributes :=
  { timestamp := 101, prevRandao := 3, suggestedFeeRecipient := 9,
    transactions := [[1], [2, 3]], noTxPool := false, gasLimit := 50000 }

/-- Same attributes with the same concatenated transaction bytes split
    differently. -/
def c5Attrs2 : PayloadAttributes :=
  { c5Attrs1 with transactions := [[1, 2], [3]] }

/-! Helper lemmas -/

/-- The deposit loop never unsets the building fields assigned by
    `startBlock`, and never touches the payload id, the force-empty flag,
    the backend pointers or the pending indices. -/
theorem depositLoop_preserves (c : Chain) :
    ∀ (otxs : List (List Nat)) (i : Nat) (s : EngineState),
      s.l2BuildingHeader.isSome → s.l2BuildingState.isSome → s.l2GasPool.isSome →
      (depositLoop c s otxs i).1.l2BuildingHeader.isSome
        ∧ (depositLoop c s otxs i).1.l2BuildingState.isSome
        ∧ (depositLoop c s otxs i).1.l2GasPool.isSome
        ∧ (depositLoop c s otxs i).1.payloadID = s.payloadID
        ∧ (depositLoop c s otxs i).1.l2ForceEmpty = s.l2ForceEmpty
        ∧ (depositLoop c s otxs i).1.backend = s.backend
        ∧ (depositLoop c s otxs i).1.pendingIndices = s.pendingIndices := by
  intro otxs
  induction otxs with
  | nil => intro i s h1 h2 h3; simp [depositLoop, h1, h2, h3]
  | cons otx rest ih =>
    intro i s h1 h2 h3
    simp only [depositLoop]
    cases hdec : c.decodeTx otx with
    | none => simp [h1, h2, h3]
    | some tx =>
      simp only []
      cases happ : c.applyTx (s.l2BuildingHeader.getD default) (s.l2GasPool.getD 0)
          (c.setTxContext (s.l2BuildingState.getD 0) tx.hash i) tx with
      | none => simp [h1, h2, h3]
      | some res => simpa using ih (i + 1) _ (by simp) (by simp) (by simp)

/-- The function `startBlock` either fails before initializing anything (unknown parent or
    state-db failure, leaving the state untouched), or has assigned the whole
    building block: header, working state, gas pool, payload id, force-empty
    flag. -/
theorem startBlock_cases (c : Chain) (s : EngineState) (parent : Nat)
    (p : PayloadAttributes) :
    (∃ e, startBlock c s parent p = (s, .err e)
          ∧ (e = .unknownParent ∨ e = .stateAtFailed))
    ∨ ((startBlock c s parent p).1.l2BuildingHeader.isSome
        ∧ (startBlock c s parent p).1.l2BuildingState.isSome
        ∧ (startBlock c s parent p).1.l2GasPool.isSome
        ∧ (startBlock c s parent p).1.payloadID = computePayloadId parent p
        ∧ (startBlock c s parent p).1.l2ForceEmpty = p.noTxPool) := by
  rcases hp : c.getHeaderByHash parent with _ | parentHeader
  · exact Or.inl ⟨.unknownParent, by simp [startBlock, hp], Or.inl rfl⟩
  rcases hst : c.stateAt parentHeader.root with _ | statedb
  · exact Or.inl ⟨.stateAtFailed, by simp [startBlock, hp, hst], Or.inr rfl⟩
  right
  simp only [startBlock, hp, hst]
  have h := depositLoop_preserves c p.transactions 0
    { s with
        l2BuildingHeader := some (startHeader c parent parentHeader p)
        l2BuildingState := some statedb
        l2Receipts := []
        l2Transactions := []
        pendingIndices := []
        l2ForceEmpty := p.noTxPool
        l2GasPool := some (startHeader c parent parentHeader p).gasLimit
        payloadID := computePayloadId parent p }
    (by simp) (by simp) (by simp)
  obtain ⟨h1, h2, h3, h4, h5, -, -⟩ := h
  exact ⟨h1, h2, h3, h4, h5⟩

/-- The deposit loop keeps the gas invariant: each successful application
    deducts its receipt's gas from the pool and adds it to the header's
    gas-used, staying within the gas limit. -/
theorem depositLoop_GasInv {c : Chain} (hc : ChainGasWF c) :
    ∀ (otxs : List (List Nat)) (i : Nat) (s : EngineState),
      s.l2BuildingHeader.isSome → GasInv s →
      GasInv (depositLoop c s otxs i).1 := by
  intro otxs
  induction otxs with
  | nil => intro i s _ h; simpa [depositLoop] using h
  | cons otx rest ih =>
    intro i s hsome h
    obtain ⟨hdr, hhdr⟩ := Option.isSome_iff_exists.mp hsome
    obtain ⟨hpool, hle⟩ := h hdr hhdr
    simp only [depositLoop]
    cases hdec : c.decodeTx otx with
    | none => simpa using h
    | some tx =>
      simp only []
      cases happ : c.applyTx (s.l2BuildingHeader.getD default) (s.l2GasPool.getD 0)
          (c.setTxContext (s.l2BuildingState.getD 0) tx.hash i) tx with
      | none => simpa using h
      | some res =>
        apply ih (i + 1) _ (by simp)
        rw [hhdr, hpool] at happ
        simp only [Option.getD_some] at happ
        obtain ⟨hg1, hg2⟩ := hc _ _ _ _ _ happ
        intro hdr' hhdr'
        simp [hhdr] at hhdr'
        subst hhdr'
        simp [hhdr, hpool]
        omega

/-- The function `startBlock` establishes (or preserves, on its early failures) the gas
    invariant: the pool starts at the header's gas limit with zero gas used,
    and deposit application maintains it. -/
theorem startBlock_GasInv {c : Chain} (hc : ChainGasWF c) (s : EngineState)
    (parent : Nat) (p : PayloadAttributes) (h : GasInv s) :
    GasInv (startBlock c s parent p).1 := by
  rcases hp : c.getHeaderByHash parent with _ | parentHeader
  · simpa [startBlock, hp] using h
  rcases hst : c.stateAt parentHeader.root with _ | statedb
  · simpa [startBlock, hp, hst] using h
  simp only [startBlock, hp, hst]
  apply depositLoop_GasInv hc _ 0 _ (by simp)
  intro hdr' hhdr'
  simp at hhdr'
  rw [← hhdr']
  simp [startHeader]

/-- Gas invariant preservation by `includeTx`. -/
theorem includeTx_GasInv {c : Chain} (hc : ChainGasWF c) (s : EngineState)
    (tx : Tx) (sender : Nat) (h : GasInv s) :
    GasInv (includeTx c s tx sender).1 := by
  unfold includeTx
  cases hh : s.l2BuildingHeader with
  | none => simpa using h
  | some hdr =>
    obtain ⟨hpool, hle⟩ := h hdr hh
    by_cases hfe : s.l2ForceEmpty
    · simpa [hfe] using h
    · simp only [hfe, if_false, Bool.false_eq_true]
      by_cases hg1 : tx.gas > hdr.gasLimit
      · simpa [hg1] using h
      · simp only [hg1, if_false]
        by_cases hg2 : tx.gas > s.l2GasPool.getD 0
        · simpa [hg2] using h
        · simp only [hg2, if_false]
          cases happ : c.applyTx hdr (s.l2GasPool.getD 0)
              (c.setTxContext (s.l2BuildingState.getD 0) tx.hash
                s.l2Transactions.length) tx with
          | none =>
            intro hdr' hhdr'
            simp at hhdr'
            exact h hdr' (by simpa [hh] using hhdr')
          | some res =>
            obtain ⟨hg3, hg4⟩ := hc _ _ _ _ _ happ
            rw [hpool] at hg3
            simp at hg3
            intro hdr' hhdr'
            simp [hpool] at hhdr' ⊢
            subst hhdr'
            simp
            omega

/-- Retrieving with the id of the open build seals and returns the block
    `endBlock` assembles, clearing only the open-build slot. -/
theorem getPayloadV1_match (c : Chain) (s : EngineState) (hdr : Header)
    (pool st : Nat)
    (h1 : s.l2BuildingHeader = some hdr) (h2 : s.l2GasPool = some pool)
    (h3 : s.l2BuildingState = some st) :
    getPayloadV1 c s s.payloadID
      = ({ s with l2BuildingHeader := none },
         .payload (c.blockAsPayload
           { header := { hdr with
                           gasUsed := hdr.gasLimit - pool
                           root := c.intermediateRoot st (c.isEIP158 hdr.number) }
             txs := s.l2Transactions })) := by
  simp [getPayloadV1, endBlock, h1, h2, h3]

/-- Retrieving with any other id returns `UnknownPayload` and leaves the
    state untouched. -/
theorem getPayloadV1_mismatch (c : Chain) (s : EngineState) (pid : List Nat)
    (hne : pid ≠ s.payloadID) :
    getPayloadV1 c s pid = (s, .unknownPayload) := by
  unfold getPayloadV1
  rw [if_pos (Ne.symm hne)]

/-! Claims -/

/-- C1 (as stated, refuted): when `startBlock` fails because applying deposit
    0 fails, the call still returns with the open-build slot set — it is not
    "unset exactly as it was before the call" (it was `none` on the fresh
    engine, and is `some` after the failed start). -/
theorem C1_counterexample :
    (newL2EngineAPI testBst).l2BuildingHeader = none
    ∧ (startBlock failChain (newL2EngineAPI testBst) 11 c1Attrs).2
        = .err (.txApplyFailed 0)
    ∧ (startBlock failChain (newL2EngineAPI testBst) 11 c1Attrs).1.l2BuildingHeader
        ≠ none := by
  refine ⟨rfl, by decide, by decide⟩

/-- C1 (amended): if `startBlock` returns an error because applying one of
    the pre-sequenced deposit transactions fails, the error identifies the
    failing index, but the build is left OPEN, not unset: the open-build slot
    holds the freshly initialized header, and the working state, gas pool and
    payload id of the partial build survive the failed start. -/
theorem C1_failed_deposit_leaves_build_open (c : Chain) (s : EngineState)
    (parent : Nat) (p : PayloadAttributes) (i : Nat)
    (h : (startBlock c s parent p).2 = .err (.txApplyFailed i)) :
    (startBlock c s parent p).1.l2BuildingHeader.isSome
      ∧ (startBlock c s parent p).1.l2BuildingState.isSome
      ∧ (startBlock c s parent p).1.l2GasPool.isSome
      ∧ (startBlock c s parent p).1.payloadID = computePayloadId parent p := by
  rcases startBlock_cases c s parent p with ⟨e, heq, he⟩ | ⟨h1, h2, h3, h4, -⟩
  · rw [heq] at h
    rcases he with rfl | rfl <;> simp at h
  · exact ⟨h1, h2, h3, h4⟩

/-- C1 witness: the amended statement at the concrete failing start. -/
theorem C1_witness :
    ((startBlock failChain (newL2EngineAPI testBst) 11 c1Attrs).2
        = .err (.txApplyFailed 0))
    ∧ (startBlock failChain (newL2EngineAPI testBst) 11 c1Attrs).1.l2BuildingHeader.isSome := by
  have h := C1_failed_deposit_leaves_build_open failChain (newL2EngineAPI testBst)
    11 c1Attrs 0 (by decide)
  exact ⟨by decide, h.1⟩

/-- C10: `RemainingBlockGas` on a freshly constructed engine dereferences the
    nil gas pool (modelled as `none`); once a gas pool is set it totally
    returns the remaining gas, and any successful `startBlock` leaves the gas
    pool initialized. -/
theorem C10_remaining_gas_requires_started_build :
    (∀ bst : BackendState, remainingBlockGas (newL2EngineAPI bst) = none)
    ∧ (∀ (s : EngineState) (g : Nat), s.l2GasPool = some g →
        remainingBlockGas s = some g)
    ∧ (∀ (c : Chain) (s : EngineState) (parent : Nat) (p : PayloadAttributes),
        (startBlock c s parent p).2 = .ok →
        ((startBlock c s parent p).1.l2GasPool).isSome) := by
  refine ⟨fun bst => rfl, fun s g h => h, fun c s parent p h => ?_⟩
  rcases startBlock_cases c s parent p with ⟨e, heq, -⟩ | ⟨-, -, h3, -, -⟩
  · rw [heq] at h
    simp at h
  · exact h3

/-- C10 witness: the concrete fresh engine, a concrete pool, and a concrete
    successful start. -/
theorem C10_witness :
    remainingBlockGas (newL2EngineAPI testBst) = none
    ∧ c2OpenState.l2GasPool = some 100000
    ∧ remainingBlockGas c2OpenState = some 100000
    ∧ (startBlock baseChain (newL2EngineAPI testBst) 11 emptyAttrs).2 = .ok
    ∧ ((startBlock baseChain (newL2EngineAPI testBst) 11 emptyAttrs).1.l2GasPool).isSome := by
  refine ⟨C10_remaining_gas_requires_started_build.1 testBst, rfl,
    C10_remaining_gas_requires_started_build.2.1 c2OpenState 100000 rfl,
    by decide,
    C10_remaining_gas_requires_started_build.2.2 baseChain _ 11 emptyAttrs (by decide)⟩

/-- C4: after a build started with the no-tx-pool flag, every `IncludeTx`
    call returns success with no effect at all on the state (transaction
    list, receipts, gas pool, pending indices, failed list all unchanged),
    and hence any sequence of such calls leaves the state unchanged. -/
theorem C4_force_empty_noop (c : Chain) (s : EngineState) (parent : Nat)
    (p : PayloadAttributes) (s1 : EngineState)
    (hp : p.noTxPool = true)
    (h : startBlock c s parent p = (s1, .ok)) :
    (∀ tx sender, includeTx c s1 tx sender = (s1, .ok))
    ∧ ∀ l : List (Tx × Nat),
        l.foldl (fun st q => (includeTx c st q.1 q.2).1) s1 = s1 := by
  have hcases := startBlock_cases c s parent p
  rw [h] at hcases
  rcases hcases with ⟨e, heq, -⟩ | ⟨hh, -, -, -, hfe⟩
  · simp at heq
  · simp only [] at hh hfe
    obtain ⟨hdr, hhdr⟩ := Option.isSome_iff_exists.mp hh
    have single : ∀ tx sender, includeTx c s1 tx sender = (s1, .ok) := by
      intro tx sender
      unfold includeTx
      rw [hhdr]
      simp [hfe, hp]
    refine ⟨single, fun l => ?_⟩
    induction l with
    | nil => rfl
    | cons q rest ih => simp [List.foldl_cons, single q.1 q.2, ih]

/-- C4 witness: a concrete no-pool build and a concrete inclusion attempt. -/
theorem C4_witness :
    noPoolAttrs.noTxPool = true
    ∧ (startBlock baseChain (newL2EngineAPI testBst) 11 noPoolAttrs).2 = .ok
    ∧ ∀ tx sender,
        includeTx baseChain
          (startBlock baseChain (newL2EngineAPI testBst) 11 noPoolAttrs).1 tx sender
        = ((startBlock baseChain (newL2EngineAPI testBst) 11 noPoolAttrs).1, .ok) := by
  refine ⟨rfl, by decide, ?_⟩
  exact (C4_force_empty_noop baseChain (newL2EngineAPI testBst) 11 noPoolAttrs _
    rfl (by rw [Prod.ext_iff]; exact ⟨rfl, by decide⟩)).1

/-- C9: a `GetPayloadV1` call with an id different from the stored payload id
    returns `UnknownPayload` and leaves the entire building state unchanged,
    so a later call with the matching id still seals and returns the block. -/
theorem C9_mismatch_preserves_build (c : Chain) (s : EngineState)
    (hdr : Header) (pool st : Nat) (pid : List Nat)
    (h1 : s.l2BuildingHeader = some hdr)
    (h2 : s.l2GasPool = some pool)
    (h3 : s.l2BuildingState = some st)
    (hne : pid ≠ s.payloadID) :
    getPayloadV1 c s pid = (s, .unknownPayload)
    ∧ getPayloadV1 c s s.payloadID
        = ({ s with l2BuildingHeader := none },
           .payload (c.blockAsPayload
             { header := { hdr with
                             gasUsed := hdr.gasLimit - pool
                             root := c.intermediateRoot st (c.isEIP158 hdr.number) }
               txs := s.l2Transactions })) :=
  ⟨getPayloadV1_mismatch c s pid hne, getPayloadV1_match c s hdr pool st h1 h2 h3⟩

/-- C9 witness: a concrete open build, a wrong id, then the matching id. -/
theorem C9_witness :
    getPayloadV1 baseChain c2OpenState [1, 2, 3, 4, 5, 6, 7, 8]
      = (c2OpenState, .unknownPayload)
    ∧ getPayloadV1 baseChain c2OpenState c2OpenState.payloadID
        = ({ c2OpenState with l2BuildingHeader := none },
           .payload (baseChain.blockAsPayload
             { header := { c2OpenHdr with
                             gasUsed := c2OpenHdr.gasLimit - 100000
                             root := baseChain.intermediateRoot 1
                               (baseChain.isEIP158 c2OpenHdr.number) }
               txs := c2OpenState.l2Transactions })) :=
  C9_mismatch_preserves_build baseChain c2OpenState c2OpenHdr 100000 1
    [1, 2, 3, 4, 5, 6, 7, 8] rfl rfl rfl (by decide)

/-- C3: payload retrieval is single-shot.  After a completed `startBlock`,
    the first `GetPayloadV1` with the build's id succeeds and closes the
    build; a second call with the same id (no intervening `startBlock`)
    returns `UnknownPayload`, as does any call whose id differs from the open
    build's id. -/
theorem C3_single_shot_retrieval (c : Chain) (s s1 : EngineState)
    (parent : Nat) (p : PayloadAttributes)
    (h : startBlock c s parent p = (s1, .ok)) :
    ((getPayloadV1 c s1 s1.payloadID).1.l2BuildingHeader = none
      ∧ ∃ pl, (getPayloadV1 c s1 s1.payloadID).2 = .payload pl)
    ∧ getPayloadV1 c (getPayloadV1 c s1 s1.payloadID).1 s1.payloadID
        = ((getPayloadV1 c s1 s1.payloadID).1, .unknownPayload)
    ∧ ∀ pid, pid ≠ s1.payloadID →
        getPayloadV1 c s1 pid = (s1, .unknownPayload) := by
  have hcases := startBlock_cases c s parent p
  rw [h] at hcases
  rcases hcases with ⟨e, heq, -⟩ | ⟨hh, hst, hpool, -, -⟩
  · simp at heq
  · simp only [] at hh hst hpool
    obtain ⟨hdr, hhdr⟩ := Option.isSome_iff_exists.mp hh
    obtain ⟨st, hstate⟩ := Option.isSome_iff_exists.mp hst
    obtain ⟨pool, hgas⟩ := Option.isSome_iff_exists.mp hpool
    have hfirst := getPayloadV1_match c s1 hdr pool st hhdr hgas hstate
    refine ⟨⟨by rw [hfirst], ⟨_, by rw [hfirst]⟩⟩, ?_, ?_⟩
    · rw [hfirst]
      simp [getPayloadV1, endBlock]
    · exact fun pid hne => getPayloadV1_mismatch c s1 pid hne

/-- C3 witness: a concrete completed start, both retrievals, and a wrong id. -/
theorem C3_witness :
    (startBlock baseChain (newL2EngineAPI testBst) 11 emptyAttrs).2 = .ok
    ∧ (getPayloadV1 baseChain
        (startBlock baseChain (newL2EngineAPI testBst) 11 emptyAttrs).1
        (startBlock baseChain (newL2EngineAPI testBst) 11 emptyAttrs).1.payloadID).1.l2BuildingHeader
        = none := by
  refine ⟨by decide, ?_⟩
  exact ((C3_single_shot_retrieval baseChain (newL2EngineAPI testBst) _ 11 emptyAttrs
    (by rw [Prod.ext_iff]; exact ⟨rfl, by decide⟩)).1).1

/-- The concrete collaborator instantiation satisfies the
    `core.ApplyTransaction` gas contract. -/
theorem baseChain_gasWF : ChainGasWF baseChain := by
  intro hdr pool st tx res h
  simp only [baseChain] at h
  split at h
  · injection h with h
    rw [← h]
    constructor
    · assumption
    · exact Nat.le_refl _
  · exact absurd h (by simp)

/-- The concrete open-build state satisfies the gas invariant. -/
theorem c2OpenState_gasInv : GasInv c2OpenState := by
  intro hdr h
  simp [c2OpenState] at h
  rw [← h]
  exact ⟨rfl, by decide⟩

/-- C2: `IncludeTx` rejects a transaction whose gas exceeds the block gas
    limit with the exceeds-gas-limit error, rejects one whose gas exceeds the
    remaining pool (but not the limit) with the uses-too-much-gas error, both
    without touching the state; in either rejection case the result does not
    depend on the backend's transaction application at all (the checks run
    before it); `startBlock` and `IncludeTx` maintain the invariant that the
    pool equals the gas limit minus the accumulated gas usage `G`, under
    which `RemainingBlockGas` returns `gasLimit - G`. -/
theorem C2_gas_checks_and_accounting :
    (∀ (c : Chain) (s : EngineState) (tx : Tx) (sender : Nat) (hdr : Header),
        s.l2BuildingHeader = some hdr → s.l2ForceEmpty = false →
        hdr.gasLimit < tx.gas →
        includeTx c s tx sender = (s, .err .exceedsGasLimit))
    ∧ (∀ (c : Chain) (s : EngineState) (tx : Tx) (sender : Nat) (hdr : Header)
        (pool : Nat),
        s.l2BuildingHeader = some hdr → s.l2ForceEmpty = false →
        s.l2GasPool = some pool →
        tx.gas ≤ hdr.gasLimit → pool < tx.gas →
        includeTx c s tx sender = (s, .err .usesTooMuchGas))
    ∧ (∀ (c : Chain) (f : Header → Nat → Nat → Tx → Option ApplyOk)
        (s : EngineState) (tx : Tx) (sender : Nat) (hdr : Header) (pool : Nat),
        s.l2BuildingHeader = some hdr → s.l2GasPool = some pool →
        (hdr.gasLimit < tx.gas ∨ pool < tx.gas) →
        includeTx { c with applyTx := f } s tx sender = includeTx c s tx sender)
    ∧ (∀ c : Chain, ChainGasWF c → ∀ (s : EngineState) (parent : Nat)
        (p : PayloadAttributes), GasInv s → GasInv (startBlock c s parent p).1)
    ∧ (∀ c : Chain, ChainGasWF c → ∀ (s : EngineState) (tx : Tx) (sender : Nat),
        GasInv s → GasInv (includeTx c s tx sender).1)
    ∧ (∀ (s : EngineState) (hdr : Header), GasInv s →
        s.l2BuildingHeader = some hdr →
        remainingBlockGas s = some (hdr.gasLimit - hdr.gasUsed)) := by
  refine ⟨?_, ?_, ?_, ?_, ?_, ?_⟩
  · intro c s tx sender hdr h1 h2 h3
    unfold includeTx
    rw [h1]
    simp [h2, h3]
  · intro c s tx sender hdr pool h1 h2 h3 h4 h5
    unfold includeTx
    rw [h1]
    simp [h2, h3, h4, h5, Nat.not_lt.mpr h4]
  · intro c f s tx sender hdr pool h1 h2 h3
    unfold includeTx
    rw [h1]
    by_cases hfe : s.l2ForceEmpty
    · simp [hfe]
    · rcases h3 with h3 | h3
      · simp [hfe, h3]
      · by_cases hlim : hdr.gasLimit < tx.gas
        · simp [hfe, hlim]
        · simp [hfe, hlim, h2, h3]
  · exact fun c hc s parent p h => startBlock_GasInv hc s parent p h
  · exact fun c hc s tx sender h => includeTx_GasInv hc s tx sender h
  · exact fun s hdr h hh => (h hdr hh).1

/-- C2 witness: the two rejections, the independence from the application
    function, and the remaining-gas accounting after a concrete inclusion. -/
theorem C2_witness :
    includeTx baseChain c2OpenState { gas := 200000, hash := 0 } 5
      = (c2OpenState, .err .exceedsGasLimit)
    ∧ includeTx baseChain { c2OpenState with l2GasPool := some 10000 }
        { gas := 20000, hash := 0 } 5
      = ({ c2OpenState with l2GasPool := some 10000 }, .err .usesTooMuchGas)
    ∧ includeTx { baseChain with applyTx := fun _ _ _ _ => none } c2OpenState
        { gas := 200000, hash := 0 } 5
      = includeTx baseChain c2OpenState { gas := 200000, hash := 0 } 5
    ∧ remainingBlockGas ((includeTx baseChain c2OpenState { gas := 21000, hash := 0 } 5).1)
      = some (100000 - 21000) := by
  refine ⟨C2_gas_checks_and_accounting.1 baseChain c2OpenState _ 5 c2OpenHdr rfl rfl
      (by decide),
    C2_gas_checks_and_accounting.2.1 baseChain _ _ 5 c2OpenHdr 10000 rfl rfl rfl
      (by decide) (by decide),
    C2_gas_checks_and_accounting.2.2.1 baseChain _ c2OpenState _ 5 c2OpenHdr 100000
      rfl rfl (Or.inl (by decide)), ?_⟩
  have hinv := C2_gas_checks_and_accounting.2.2.2.2.1 baseChain baseChain_gasWF
    c2OpenState { gas := 21000, hash := 0 } 5 c2OpenState_gasInv
  have hhdr : (includeTx baseChain c2OpenState { gas := 21000, hash := 0 } 5).1.l2BuildingHeader
      = some { c2OpenHdr with gasUsed := 21000 } := by decide
  have hres := C2_gas_checks_and_accounting.2.2.2.2.2 _ _ hinv hhdr
  simpa using hres

/-- C6: for a `NewPayloadV1` submission whose block decodes, is not already
    known, and whose parent is known, a timestamp not strictly greater than
    the parent's yields status Invalid with latest-valid equal to the
    parent's hash — or the zero hash when the parent has nonzero difficulty —
    per the `invalid()` helper's rule. -/
theorem C6_timestamp_not_increasing_invalid (c : Chain) (bst : BackendState)
    (payload : ExecutionPayload) (block parent : Block)
    (h1 : c.executableDataToBlock payload = some block)
    (h2 : c.getBlockByHash payload.blockHash = none)
    (h3 : c.getBlock block.header.parentHash (u64sub1 block.header.number)
            = some parent)
    (h4 : block.header.time ≤ parent.header.time) :
    newPayloadV1 c bst payload
      = { status := .invalid
          latestValidHash := some
            (if parent.header.difficulty = 0 then c.headerHash parent.header else 0)
          validationError := true } := by
  simp [newPayloadV1, h1, h2, h3, h4, invalidStatus]

/-- C6 witness: a concrete candidate at timestamp 400 atop a parent at
    timestamp 500. -/
theorem C6_witness :
    baseChain.executableDataToBlock c6Payload = some c6CandBlock
    ∧ c6CandBlock.header.time ≤ c6ParentBlock.header.time
    ∧ newPayloadV1 baseChain testBst c6Payload
      = { status := .invalid
          latestValidHash := some
            (if c6ParentBlock.header.difficulty = 0
             then baseChain.headerHash c6ParentBlock.header else 0)
          validationError := true } := by
  refine ⟨by decide, by decide, ?_⟩
  exact C6_timestamp_not_increasing_invalid baseChain testBst c6Payload
    c6CandBlock c6ParentBlock (by decide) (by decide) (by decide) (by decide)

/-- A full valid run of `ForkchoiceUpdatedV1` without build attributes: when
    the head resolves, is post-merge and canonical, and the finalized and
    safe hashes resolve to canonical headers, the call returns Valid and its
    only state effect is setting the finalized and safe pointers. -/
theorem fcu_valid_run (c : Chain) (t : EngineState) (fs : ForkchoiceState)
    (block : Block) (fh sh : Header)
    (hh0 : fs.headBlockHash ≠ 0)
    (hb : c.getBlockByHash fs.headBlockHash = some block)
    (hd : block.header.difficulty = 0)
    (hcan : t.backend.canonicalHash block.header.number = fs.headBlockHash)
    (hopt : c.cfgOptimism = true)
    (hf0 : fs.finalizedBlockHash ≠ 0)
    (hf1 : c.getHeaderByHash fs.finalizedBlockHash = some fh)
    (hf2 : t.backend.canonicalHash fh.number = fs.finalizedBlockHash)
    (hs0 : fs.safeBlockHash ≠ 0)
    (hs1 : c.getHeaderByHash fs.safeBlockHash = some sh)
    (hs2 : t.backend.canonicalHash sh.number = fs.safeBlockHash) :
    forkchoiceUpdatedV1 c t fs none
      = ({ t with backend := { t.backend with final := some fh, safe := some sh } },
         .result (validFcuResult fs none) none) := by
  have hfinal : fcuFinalPhase c t fs none
      = ({ t with backend := { t.backend with final := some fh, safe := some sh } },
         .result (validFcuResult fs none) none) := by
    unfold fcuFinalPhase
    rw [if_pos hf0]
    simp only [hf1]
    rw [if_neg (by simp [hf2])]
    unfold fcuSafePhase
    rw [if_pos hs0]
    simp only [hs1]
    rw [if_neg (by simpa [BackendState.canonicalHash] using
      (by simpa [BackendState.canonicalHash] using hs2 :
        mapGet t.backend.canonical sh.number = fs.safeBlockHash))]
    unfold fcuAttrPhase
    rfl
  unfold forkchoiceUpdatedV1
  rw [if_neg hh0]
  simp only [hb]
  rw [if_neg (by simp [hd])]
  rw [if_neg (by simp [hcan])]
  by_cases hcc : c.headerHash t.backend.current = fs.headBlockHash
  · rw [if_pos hcc]
    exact hfinal
  · rw [if_neg hcc, if_pos hopt]
    exact hfinal

/-- C7: `ForkchoiceUpdatedV1` is idempotent for valid states: with the same
    non-zero head, safe and finalized hashes — the head resolved, post-merge
    and canonical, safe and finalized resolved and canonical, on an
    Optimism-configured chain — two successive calls without build attributes
    both return Valid, and the second call leaves the backend's canonical
    mapping and current, safe and finalized pointers exactly where the first
    call left them. -/
theorem C7_fcu_idempotent (c : Chain) (s : EngineState) (fs : ForkchoiceState)
    (block : Block) (fh sh : Header)
    (hh0 : fs.headBlockHash ≠ 0)
    (hb : c.getBlockByHash fs.headBlockHash = some block)
    (hd : block.header.difficulty = 0)
    (hcan : s.backend.canonicalHash block.header.number = fs.headBlockHash)
    (hopt : c.cfgOptimism = true)
    (hf0 : fs.finalizedBlockHash ≠ 0)
    (hf1 : c.getHeaderByHash fs.finalizedBlockHash = some fh)
    (hf2 : s.backend.canonicalHash fh.number = fs.finalizedBlockHash)
    (hs0 : fs.safeBlockHash ≠ 0)
    (hs1 : c.getHeaderByHash fs.safeBlockHash = some sh)
    (hs2 : s.backend.canonicalHash sh.number = fs.safeBlockHash) :
    forkchoiceUpdatedV1 c s fs none
      = ({ s with backend := { s.backend with final := some fh, safe := some sh } },
         .result (validFcuResult fs none) none)
    ∧ forkchoiceUpdatedV1 c
        { s with backend := { s.backend with final := some fh, safe := some sh } }
        fs none
      = ({ s with backend := { s.backend with final := some fh, safe := some sh } },
         .result (validFcuResult fs none) none) := by
  constructor
  · exact fcu_valid_run c s fs block fh sh hh0 hb hd hcan hopt hf0 hf1 hf2 hs0 hs1 hs2
  · have h2 := fcu_valid_run c
      { s with backend := { s.backend with final := some fh, safe := some sh } }
      fs block fh sh hh0 hb hd
      (by simpa [BackendState.canonicalHash] using hcan) hopt hf0 hf1
      (by simpa [BackendState.canonicalHash] using hf2) hs0 hs1
      (by simpa [BackendState.canonicalHash] using hs2)
    exact h2

/-- C7 witness: the concrete chain, canonical head 11, finalized 21, safe 22. -/
theorem C7_witness :
    forkchoiceUpdatedV1 baseChain (newL2EngineAPI testBst) testFs none
      = ({ newL2EngineAPI testBst with
             backend := { testBst with final := some finalHdr, safe := some safeHdr } },
         .result (validFcuResult testFs none) none)
    ∧ forkchoiceUpdatedV1 baseChain
        ({ newL2EngineAPI testBst with
             backend := { testBst with final := some finalHdr, safe := some safeHdr } })
        testFs none
      = ({ newL2EngineAPI testBst with
             backend := { testBst with final := some finalHdr, safe := some safeHdr } },
         .result (validFcuResult testFs none) none) :=
  C7_fcu_idempotent baseChain (newL2EngineAPI testBst) testFs headBlock finalHdr
    safeHdr (by decide) (by decide) (by decide) (by decide) (by decide) (by decide)
    (by decide) (by decide) (by decide) (by decide) (by decide)

/-- C8: the finalized pointer is reconciled before the safe pointer and is
    not rolled back: when the head passes all checks and is canonical, the
    finalized hash resolves to a canonical header, but the safe hash is
    unknown or not canonical, the call returns Invalid (with the
    invalid-forkchoice-state error) — yet the returned state already has the
    finalized pointer set to the requested header. -/
theorem C8_final_set_despite_safe_failure (c : Chain) (s : EngineState)
    (fs : ForkchoiceState) (attr : Option PayloadAttributes)
    (block : Block) (fh : Header)
    (hh0 : fs.headBlockHash ≠ 0)
    (hb : c.getBlockByHash fs.headBlockHash = some block)
    (hd : block.header.difficulty = 0)
    (hcan : s.backend.canonicalHash block.header.number = fs.headBlockHash)
    (hopt : c.cfgOptimism = true)
    (hf0 : fs.finalizedBlockHash ≠ 0)
    (hf1 : c.getHeaderByHash fs.finalizedBlockHash = some fh)
    (hf2 : s.backend.canonicalHash fh.number = fs.finalizedBlockHash)
    (hs0 : fs.safeBlockHash ≠ 0)
    (hsbad : c.getHeaderByHash fs.safeBlockHash = none
      ∨ ∃ sh, c.getHeaderByHash fs.safeBlockHash = some sh
          ∧ s.backend.canonicalHash sh.number ≠ fs.safeBlockHash) :
    forkchoiceUpdatedV1 c s fs attr
      = ({ s with backend := { s.backend with final := some fh } },
         .result STATUS_INVALID (some .invalidForkchoiceState)) := by
  have hsafe : fcuSafePhase c
      { s with backend := { s.backend with final := some fh } } fs attr
      = ({ s with backend := { s.backend with final := some fh } },
         .result STATUS_INVALID (some .invalidForkchoiceState)) := by
    unfold fcuSafePhase
    rw [if_pos hs0]
    rcases hsbad with hnone | ⟨sh, hsh, hnc⟩
    · simp only [hnone]
    · simp only [hsh]
      rw [if_pos (by simpa [BackendState.canonicalHash] using
        (by simpa [BackendState.canonicalHash] using hnc :
          mapGet s.backend.canonical sh.number ≠ fs.safeBlockHash))]
  have hfinal : fcuFinalPhase c s fs attr
      = ({ s with backend := { s.backend with final := some fh } },
         .result STATUS_INVALID (some .invalidForkchoiceState)) := by
    unfold fcuFinalPhase
    rw [if_pos hf0]
    simp only [hf1]
    rw [if_neg (by simp [hf2])]
    exact hsafe
  unfold forkchoiceUpdatedV1
  rw [if_neg hh0]
  simp only [hb]
  rw [if_neg (by simp [hd])]
  rw [if_neg (by simp [hcan])]
  by_cases hcc : c.headerHash s.backend.current = fs.headBlockHash
  · rw [if_pos hcc]
    exact hfinal
  · rw [if_neg hcc, if_pos hopt]
    exact hfinal

/-- C8 witness: safe hash 23 is unknown while finalized 21 is canonical; the
    result is Invalid and the finalized pointer is set. -/
theorem C8_witness :
    forkchoiceUpdatedV1 baseChain (newL2EngineAPI testBst)
      { headBlockHash := 11, safeBlockHash := 23, finalizedBlockHash := 21 } none
      = ({ newL2EngineAPI testBst with
             backend := { testBst with final := some finalHdr } },
         .result STATUS_INVALID (some .invalidForkchoiceState)) :=
  C8_final_set_despite_safe_failure baseChain (newL2EngineAPI testBst)
    { headBlockHash := 11, safeBlockHash := 23, finalizedBlockHash := 21 } none
    headBlock finalHdr (by decide) (by decide) (by decide) (by decide) (by decide)
    (by decide) (by decide) (by decide) (by decide) (Or.inl (by decide))

theorem u64be_inj {a b : Nat} (ha : a < 2 ^ 64) (hb : b < 2 ^ 64)
    (h : u64be a = u64be b) : a = b := by
  simp [u64be] at h
  omega

/-- The length-prefixed transaction encoding fed to the payload-id hasher is
    injective on transaction lists (with `uint64`-sized lengths): equal
    concatenated encodings force equal lists. -/
theorem txEnc_flatten_inj :
    ∀ xs ys : List (List Nat),
      (∀ x ∈ xs, x.length < 2 ^ 64) → (∀ y ∈ ys, y.length < 2 ^ 64) →
      (xs.map txEnc).flatten = (ys.map txEnc).flatten → xs = ys := by
  intro xs
  induction xs with
  | nil =>
    intro ys _ _ h
    cases ys with
    | nil => rfl
    | cons y ys => simp [txEnc, u64be] at h
  | cons x xs ih =>
    intro ys hx hy h
    cases ys with
    | nil => simp [txEnc, u64be] at h
    | cons y ys =>
      simp only [List.map_cons, List.flatten_cons, txEnc] at h
      rw [List.append_assoc, List.append_assoc] at h
      obtain ⟨h8, hrest⟩ := List.append_inj h (by simp [u64be])
      have hlen : x.length = y.length :=
        u64be_inj (hx x (by simp)) (hy y (by simp)) h8
      obtain ⟨hxy, hJ⟩ := List.append_inj hrest hlen
      have htail := ih ys (fun z hz => hx z (by simp [hz]))
        (fun z hz => hy z (by simp [hz])) hJ
      rw [hxy, htail]

/-- On attributes that agree on every field but the transaction list, equal
    hasher inputs force equal transaction lists. -/
theorem payloadIdInput_txs_inj (hsh : Nat) (p1 p2 : PayloadAttributes)
    (ht : p1.timestamp = p2.timestamp) (hr : p1.prevRandao = p2.prevRandao)
    (hfr : p1.suggestedFeeRecipient = p2.suggestedFeeRecipient)
    (hn : p1.noTxPool = p2.noTxPool) (hg : p1.gasLimit = p2.gasLimit)
    (hb1 : ∀ tx ∈ p1.transactions, tx.length < 2 ^ 64)
    (hb2 : ∀ tx ∈ p2.transactions, tx.length < 2 ^ 64)
    (_hcnt1 : p1.transactions.length < 2 ^ 64)
    (_hcnt2 : p2.transactions.length < 2 ^ 64)
    (h : payloadIdInput hsh p1 = payloadIdInput hsh p2) :
    p1.transactions = p2.transactions := by
  unfold payloadIdInput at h
  rw [ht, hr, hfr, hn, hg] at h
  simp only [List.append_assoc] at h
  have h1 := List.append_cancel_left h
  have h2 := List.append_cancel_left h1
  have h3 := List.append_cancel_left h2
  have h4 := List.append_cancel_left h3
  have h5 := List.append_cancel_left h4
  obtain ⟨hcount, hbody⟩ := List.append_inj h5 (by simp [u64be])
  exact txEnc_flatten_inj _ _ hb1 hb2 (List.append_cancel_right hbody)

/-- C5: the payload identifier is a deterministic function of the build
    inputs — two successful `startBlock` calls with the same parent hash and
    attributes store the same payload id — and the length-prefix encoding is
    collision-free: attribute pairs that differ only in how the same
    concatenated transaction bytes are split produce different inputs to
    `computePayloadId`'s hasher. -/
theorem C5_payload_id_deterministic_and_collision_free :
    (∀ (c c' : Chain) (s t : EngineState) (parent : Nat) (p : PayloadAttributes)
        (s1 t1 : EngineState),
        startBlock c s parent p = (s1, .ok) →
        startBlock c' t parent p = (t1, .ok) →
        s1.payloadID = t1.payloadID)
    ∧ (∀ (hsh : Nat) (p1 p2 : PayloadAttributes),
        p1.timestamp = p2.timestamp → p1.prevRandao = p2.prevRandao →
        p1.suggestedFeeRecipient = p2.suggestedFeeRecipient →
        p1.noTxPool = p2.noTxPool → p1.gasLimit = p2.gasLimit →
        p1.transactions ≠ p2.transactions →
        p1.transactions.flatten = p2.transactions.flatten →
        (∀ tx ∈ p1.transactions, tx.length < 2 ^ 64) →
        (∀ tx ∈ p2.transactions, tx.length < 2 ^ 64) →
        p1.transactions.length < 2 ^ 64 → p2.transactions.length < 2 ^ 64 →
        payloadIdInput hsh p1 ≠ payloadIdInput hsh p2) := by
  constructor
  · intro c c' s t parent p s1 t1 h1 h2
    have hc1 := startBlock_cases c s parent p
    rw [h1] at hc1
    have hc2 := startBlock_cases c' t parent p
    rw [h2] at hc2
    rcases hc1 with ⟨e, he, -⟩ | ⟨-, -, -, hid1, -⟩
    · simp at he
    rcases hc2 with ⟨e, he, -⟩ | ⟨-, -, -, hid2, -⟩
    · simp at he
    exact hid1.trans hid2.symm
  · intro hsh p1 p2 ht hr hfr hn hg hne hflat hb1 hb2 hcnt1 hcnt2 h
    exact hne (payloadIdInput_txs_inj hsh p1 p2 ht hr hfr hn hg hb1 hb2
      hcnt1 hcnt2 h)

/-- C5 witness: two concrete successful starts with identical inputs agree on
    the stored id, and the concrete split `[[1],[2,3]]` versus `[[1,2],[3]]`
    of the same bytes yields different hasher inputs. -/
theorem C5_witness :
    ((startBlock baseChain (newL2EngineAPI testBst) 11 emptyAttrs).2 = .ok
      ∧ (startBlock baseChain c2OpenState 11 emptyAttrs).2 = .ok
      ∧ (startBlock baseChain (newL2EngineAPI testBst) 11 emptyAttrs).1.payloadID
          = (startBlock baseChain c2OpenState 11 emptyAttrs).1.payloadID)
    ∧ c5Attrs1.transactions ≠ c5Attrs2.transactions
    ∧ c5Attrs1.transactions.flatten = c5Attrs2.transactions.flatten
    ∧ payloadIdInput 11 c5Attrs1 ≠ payloadIdInput 11 c5Attrs2 := by
  refine ⟨⟨by decide, by decide, ?_⟩, by decide, by decide, ?_⟩
  · exact C5_payload_id_deterministic_and_collision_free.1 baseChain baseChain
      (newL2EngineAPI testBst) c2OpenState 11 emptyAttrs _ _
      (by rw [Prod.ext_iff]; exact ⟨rfl, by decide⟩)
      (by rw [Prod.ext_iff]; exact ⟨rfl, by decide⟩)
  · exact C5_payload_id_deterministic_and_collision_free.2 11 c5Attrs1 c5Attrs2
      rfl rfl rfl rfl rfl (by decide) (by decide) (by decide) (by decide)
      (by decide) (by decide)

end EngineAPI
